import Mathlib

/-!
# Verification of `MPS036/Python-Mini-Projects`

Shallow embedding of the three programs of the repository:

* `src/Calculator/Calculator.py` — the calculator input/display state machine
  (the `Calculator` class logic: digit/point/negate/backspace entry editing,
  operator handling, evaluation, and the division-by-zero error state);
* `src/CurrencyConverter/CurrencyConverter.py` — the command-line currency
  client (API-key guard, per-command error reporting, command loop);
* `src/RPS/RPS.py` — the rock-paper-scissors winner function.

Python strings are modelled as Lean `String`, manipulated through helpers on
the underlying character list so that concrete computations reduce easily.
Python numbers appearing in the calculator are either `int` (arbitrary
precision, modelled as `Int`) or `float`.  Floats are idealised as exact
rationals (`ℚ`): every value the verified claims exercise is an integer or a
short finite decimal, where this idealisation agrees with IEEE-754 doubles
and with Python's `repr`.  GUI side effects (`setText`, `setDisabled`) are
modelled as fields of an explicit state record; Python exceptions are
modelled with `Except`, the error carrying the state at the moment the
exception is raised (object mutations performed before the raise persist,
exactly as in Python).
-/

/-! ## Python string primitives -/

/-- `c in s` on a Python string. -/
def pyContains (s : String) (c : Char) : Bool := s.data.contains c

/-- `s[:-n]` on a Python string (drop the last `n` characters). -/
def pyDropLast (s : String) (n : Nat) : String :=
  String.mk (s.data.take (s.data.length - n))

/-- `s.endswith(suffix)` on a Python string. -/
def pyEndsWith (s suffix : String) : Bool := suffix.data.isSuffixOf s.data

/-- `s.startswith(p)` on a Python string. -/
def pyStartsWith (s p : String) : Bool := p.data.isPrefixOf s.data

/-- `len(s)` on a Python string. -/
def pyLen (s : String) : Nat := s.data.length

/-- `s[1:]` on a Python string. -/
def pyDropFirst (s : String) : String := String.mk (s.data.drop 1)

/-- One step of `str.split()`: accumulate a word (reversed in `acc`),
emitting it when a space or the end of the string is reached. -/
def pySplitAux : List Char → List Char → List String
  | [], acc => if acc.isEmpty then [] else [String.mk acc.reverse]
  | c :: cs, acc =>
      if c = ' ' then
        if acc.isEmpty then pySplitAux cs []
        else String.mk acc.reverse :: pySplitAux cs []
      else pySplitAux cs (c :: acc)

/-- `s.split()` on a Python string: split on runs of spaces, dropping empty
pieces.  (Python also splits on other whitespace; none occurs in this
program's strings.) -/
def pySplit (s : String) : List String := pySplitAux s.data []

/-- `s.strip()` on a Python string (spaces only, as above). -/
def pyStrip (s : String) : String :=
  String.mk (((s.data.dropWhile (· = ' ')).reverse.dropWhile (· = ' ')).reverse)

/-- `s.lower()` on a Python string. -/
def pyLower (s : String) : String := String.mk (s.data.map Char.toLower)

/-- `s.upper()` on a Python string. -/
def pyUpper (s : String) : String := String.mk (s.data.map Char.toUpper)

/-! ## Python numbers

The calculator manipulates Python `int` and `float` values; `float` is
idealised as an exact rational (see the file header). -/

/-- A Python float, idealised as an exact fraction `n / d` (see the file
header).  The pair is kept unnormalised — all operations on it are plain
integer arithmetic, so concrete runs reduce inside the kernel; every value
the program builds has `d > 0` (a power of ten from parsing) or `d ≠ 0`
(a product of such powers with a nonzero divisor). -/
structure PyFloat where
  n : Int
  d : Int
deriving DecidableEq, Repr

/-- A Python number: an `int` or a `float`. -/
inductive PyNum where
  | int (i : Int)
  | float (f : PyFloat)
deriving DecidableEq, Repr

/-- The mathematical value of a Python number (specification-level only;
the executable code below never computes in `ℚ`). -/
def PyNum.val : PyNum → ℚ
  | .int i => (i : ℚ)
  | .float f => (f.n : ℚ) / (f.d : ℚ)

/-- Python `x == 0` on a number: for an `int`, `i = 0`; for a (well-formed)
float `n / d`, `n = 0`. -/
def PyNum.isZero : PyNum → Bool
  | .int i => i == 0
  | .float f => f.n == 0

/-- A Python number as a float pair (`float(x)`). -/
def PyNum.toFloatPair : PyNum → PyFloat
  | .int i => ⟨i, 1⟩
  | .float f => f

/-- `10 ^ n` as an integer, by plain recursion. -/
def intPow10 : Nat → Int
  | 0 => 1
  | n + 1 => 10 * intPow10 n

/-- Numeric value of a digit list (most significant first); `0` on `[]`. -/
def natFromDigits (cs : List Char) : Nat :=
  cs.foldl (fun n c => 10 * n + (c.toNat - '0'.toNat)) 0

/-- `int(s)` for an unsigned digit string; `none` (`ValueError`) if `s` is
empty or contains a non-digit. -/
def parseNatDigits (cs : List Char) : Option Nat :=
  if cs.isEmpty then none
  else if cs.all (·.isDigit) then some (natFromDigits cs) else none

/-- Python `int(s)`: optional sign followed by digits; `none` models
`ValueError`.  (Python also allows surrounding whitespace and underscores;
the program never produces such strings.) -/
def pyParseInt (s : String) : Option Int :=
  match s.data with
  | '-' :: rest => (parseNatDigits rest).map (fun n => -(n : Int))
  | '+' :: rest => (parseNatDigits rest).map (fun n => (n : Int))
  | cs => (parseNatDigits cs).map (fun n => (n : Int))

/-- Python `float(s)` on the decimal strings this program builds: optional
sign, digits, optional point, digits, with at least one digit; the value is
the exact decimal value `(ip·10^len + fp) / 10^len` (see the idealisation
note in the file header).  `none` models `ValueError`. -/
def pyParseFloatBody (cs : List Char) : Option PyFloat :=
  let ip := cs.takeWhile (· ≠ '.')
  let rest := cs.dropWhile (· ≠ '.')
  let fp := rest.drop 1
  if (rest.isEmpty || !(fp.contains '.')) && ip.all (·.isDigit) &&
      fp.all (·.isDigit) && !(ip.isEmpty && fp.isEmpty) then
    some ⟨(natFromDigits ip : Int) * intPow10 fp.length +
            (natFromDigits fp : Int), intPow10 fp.length⟩
  else none

/-- The sign handling of Python `float(s)` around `pyParseFloatBody`. -/
def pyParseFloat (s : String) : Option PyFloat :=
  match s.data with
  | '-' :: rest => (pyParseFloatBody rest).map (fun f => ⟨-f.n, f.d⟩)
  | '+' :: rest => pyParseFloatBody rest
  | cs => pyParseFloatBody cs

/-- Decimal rendering of `m / 10 ^ e` with exactly `e` fractional digits
(`e > 0`), as Python prints such a float. -/
def pyDecRepr (m : Int) (e : Nat) : String :=
  let digs := toString m.natAbs
  let digs :=
    if digs.length ≤ e then
      String.mk (List.replicate (e + 1 - digs.length) '0') ++ digs
    else digs
  (if m < 0 then "-" else "") ++ pyDropLast digs e ++ "." ++
    String.mk (digs.data.drop (digs.data.length - e))

/-- Python `str(f)` for a float `f = n / d`, on the values this development
evaluates: integral floats print as `"<n>.0"`, finite decimals print with
the least number of digits (Python's shortest-roundtrip repr agrees on
these).  The final branch (no finite decimal form within 17 digits) is
never exercised by the verified claims; it has a total placeholder
rendering. -/
def pyFloatRepr (f : PyFloat) : String :=
  if f.n % f.d = 0 then toString (f.n / f.d) ++ ".0"
  else
    match (List.range 17).find? (fun k => f.n * intPow10 (k + 1) % f.d = 0) with
    | some k => pyDecRepr (f.n * intPow10 (k + 1) / f.d) (k + 1)
    | none => toString f.n ++ "e" ++ toString f.d

/-- Python `str(n)` for an `int` or `float`. -/
def pyStr : PyNum → String
  | .int i => toString i
  | .float f => pyFloatRepr f

/-! ## Calculator: state and arithmetic

`src/Calculator/Calculator.py`.  The visible state consists of the entry
field (`self.ui.lineEdit`), the pending-expression label (`self.ui.label`),
the `is_result_shown` flag, and whether the operator/equals buttons are
disabled (`disable_buttons`). -/

/-- `ERROR_ZERO_DIV` of the source. -/
def ERROR_ZERO_DIV : String := "Division by zero"

/-- `ERROR_UNDEFINED` of the source. -/
def ERROR_UNDEFINED : String := "Result is undefined"

/-- The visible state of the calculator window. -/
structure CalcState where
  lineEdit : String
  label : String
  is_result_shown : Bool
  buttons_disabled : Bool
deriving DecidableEq, Repr

/-- Python exceptions that the calculator logic can raise. -/
inductive PyExc where
  | attributeError
  | valueError
  | indexError
  | typeError
deriving DecidableEq, Repr

/-- A handler either finishes in a new state or raises an exception; the
error carries the state at the moment of the raise, because mutations made
before an uncaught Python exception persist on the window object. -/
abbrev CalcResult := Except (PyExc × CalcState) CalcState

/-- The initial window state: the Qt designer file starts the entry at
`"0"` with an empty expression label, no result shown and all buttons
enabled (spec §3: Entry "never empty; defaults to \"0\""). -/
def calcInit : CalcState :=
  { lineEdit := "0", label := "", is_result_shown := false,
    buttons_disabled := false }

/-- `remove_error` of the source: if the entry currently shows one of the
two error messages, reset it to `"0"` and re-enable the operator keys. -/
def remove_error (s : CalcState) : CalcState :=
  if s.lineEdit = ERROR_ZERO_DIV ∨ s.lineEdit = ERROR_UNDEFINED then
    { s with lineEdit := "0", buttons_disabled := false }
  else s

/-- The source calls `self.clear_temp()` in its digit, point, negate and
backspace handlers, but no method `clear_temp` is defined anywhere in the
`Calculator` class or module (nor inherited from `QMainWindow`), so in
Python the attribute lookup fails and the call raises `AttributeError`,
aborting the handler at that point with all earlier mutations kept. -/
def clear_temp (s : CalcState) : CalcResult :=
  Except.error (PyExc.attributeError, s)

/-- `show_error` of the source: display the message in the entry field and
disable the operator and equals buttons. -/
def show_error (text : String) (s : CalcState) : CalcState :=
  { s with lineEdit := text, buttons_disabled := true }

/-- `add_digit` of the source. -/
def add_digit (digit : String) (s : CalcState) : CalcResult := do
  let s := remove_error s
  let s ← clear_temp s
  let s := if s.is_result_shown then
      { s with lineEdit := "0", is_result_shown := false }
    else s
  let current := s.lineEdit
  if current = "0" then
    pure { s with lineEdit := digit }
  else
    pure { s with lineEdit := current ++ digit }

/-- `add_point` of the source. -/
def add_point (s : CalcState) : CalcResult := do
  let s ← clear_temp s
  let s := if s.is_result_shown then
      { s with lineEdit := "0", is_result_shown := false }
    else s
  if pyContains s.lineEdit '.' then
    pure s
  else
    pure { s with lineEdit := s.lineEdit ++ "." }

/-- `negate` of the source. -/
def negate (s : CalcState) : CalcResult := do
  let s ← clear_temp s
  let entry := s.lineEdit
  let entry :=
    if pyStartsWith entry "-" then pyDropFirst entry
    else if entry ≠ "0" then "-" ++ entry
    else entry
  pure { s with lineEdit := entry }

/-- `backspace` of the source. -/
def backspace (s : CalcState) : CalcResult := do
  let s := remove_error s
  let s ← clear_temp s
  if s.is_result_shown then
    pure { s with lineEdit := "0", is_result_shown := false }
  else
    let entry := s.lineEdit
    if pyLen entry > 1 then
      pure { s with lineEdit := pyDropLast entry 1 }
    else
      pure { s with lineEdit := "0" }

/-- `clear_all` of the source. -/
def clear_all (s : CalcState) : CalcState :=
  let s := remove_error s
  { s with lineEdit := "0", label := "", is_result_shown := false }

/-! ## Calculator: calculation logic -/

/-- `get_entry` of the source: the entry field as a number, `float` if it
contains a point and `int` otherwise; `none` models the `ValueError` that
`int`/`float` raise on a non-numeric entry (e.g. an error message). -/
def get_entry (s : CalcState) : Option PyNum :=
  let entry := s.lineEdit
  if pyContains entry '.' then (pyParseFloat entry).map .float
  else (pyParseInt entry).map .int

/-- `get_temp` of the source: the first whitespace-separated token of the
label, parsed like `get_entry`; `.ok none` when the label is empty
(Python `None`), `.error .indexError` on a nonempty all-space label,
`.error .valueError` on an unparsable token. -/
def get_temp (s : CalcState) : Except PyExc (Option PyNum) :=
  if s.label = "" then .ok none
  else
    match (pySplit s.label).head? with
    | none => .error .indexError
    | some t =>
      if pyContains t '.' then
        match pyParseFloat t with
        | some q => .ok (some (.float q))
        | none => .error .valueError
      else
        match pyParseInt t with
        | some i => .ok (some (.int i))
        | none => .error .valueError

/-- `get_mathsign` of the source: the last whitespace-separated token of
the label, `.ok none` when the label is empty. -/
def get_mathsign (s : CalcState) : Except PyExc (Option String) :=
  if s.label = "" then .ok none
  else
    match (pySplit s.label).getLast? with
    | none => .error .indexError
    | some t => .ok (some t)

/-- The four operations of the `operations` dict of the source. -/
inductive CalcOp where
  | add
  | sub
  | mul
  | div
deriving DecidableEq, Repr

/-- The `operations` dict: `none` models the `KeyError` raised on lookup of
any other symbol (e.g. `"="`). -/
def operations (sign : String) : Option CalcOp :=
  if sign = "+" then some .add
  else if sign = "-" then some .sub
  else if sign = "*" then some .mul
  else if sign = "/" then some .div
  else none

/-- Fraction addition on float pairs. -/
def PyFloat.add (a b : PyFloat) : PyFloat := ⟨a.n * b.d + b.n * a.d, a.d * b.d⟩

/-- Fraction subtraction on float pairs. -/
def PyFloat.sub (a b : PyFloat) : PyFloat := ⟨a.n * b.d - b.n * a.d, a.d * b.d⟩

/-- Fraction multiplication on float pairs. -/
def PyFloat.mul (a b : PyFloat) : PyFloat := ⟨a.n * b.n, a.d * b.d⟩

/-- Fraction division on float pairs (caller checks the divisor). -/
def PyFloat.div (a b : PyFloat) : PyFloat := ⟨a.n * b.d, a.d * b.n⟩

/-- Python `+`, `-`, `*` on two numbers: `int` when both are `int`,
`float` otherwise. -/
def pyArith (f : PyFloat → PyFloat → PyFloat) (g : Int → Int → Int) :
    PyNum → PyNum → PyNum
  | .int a, .int b => .int (g a b)
  | a, b => .float (f a.toFloatPair b.toFloatPair)

/-- Applying one of the four operations; `truediv` always yields a float
and raises `ZeroDivisionError` (the `.error ()`) when the divisor equals
zero, for both `int` and `float` divisors. -/
def applyOp : CalcOp → PyNum → PyNum → Except Unit PyNum
  | .add, a, b => .ok (pyArith .add (· + ·) a b)
  | .sub, a, b => .ok (pyArith .sub (· - ·) a b)
  | .mul, a, b => .ok (pyArith .mul (· * ·) a b)
  | .div, a, b =>
    if b.isZero then .error ()
    else .ok (.float (a.toFloatPair.div b.toFloatPair))

/-- `remove_zeros` of the source: `str(float(num))` with a trailing `".0"`
stripped; `.error .valueError` when `float(num)` fails. -/
def remove_zeros (num : String) : Except PyExc String :=
  match pyParseFloat num with
  | none => .error .valueError
  | some q =>
    let n := pyFloatRepr q
    .ok (if pyEndsWith n ".0" then pyDropLast n 2 else n)

/-- `calculate` of the source: no-op on an empty label; `KeyError` on an
unknown operator (e.g. after `"="`) is caught and returns `None`;
`ZeroDivisionError` is caught and shows `ERROR_UNDEFINED` when the stored
left operand equals `0` and `ERROR_ZERO_DIV` otherwise; on success the
label becomes `"<left> <op> <right> ="`, the entry shows the trimmed
result, and `is_result_shown` is set.  Python evaluates
`operations[self.get_mathsign()]` before `get_temp`/`get_entry`, so a
`KeyError` precedes any `ValueError` from parsing. -/
def calculate (s : CalcState) : CalcResult :=
  if s.label = "" then .ok s
  else
    match get_mathsign s with
    | .error e => .error (e, s)
    | .ok none => .ok s
    | .ok (some sign) =>
      match operations sign with
      | none => .ok s
      | some op =>
        match get_temp s with
        | .error e => .error (e, s)
        | .ok none => .error (.typeError, s)
        | .ok (some temp) =>
          match get_entry s with
          | none => .error (.valueError, s)
          | some entry =>
            match applyOp op temp entry with
            | .error () =>
              .ok (if temp.isZero then show_error ERROR_UNDEFINED s
                   else show_error ERROR_ZERO_DIV s)
            | .ok result =>
              match remove_zeros (pyStr result) with
              | .error e => .error (e, s)
              | .ok resStr =>
                .ok { s with
                  label := pyStr temp ++ " " ++ sign ++ " " ++ s.lineEdit ++ " =",
                  lineEdit := resStr,
                  is_result_shown := true }

/-- `math_operation` of the source: with an empty label, move the trimmed
entry into the label followed by the operator and reset the entry to `"0"`;
with a finalized label (last token `"="`), restart the label from the
trimmed entry; otherwise substitute the trailing character of the label by
the new operator.  In every non-raising branch `is_result_shown` is
cleared; the entry field is only written in the empty-label branch. -/
def math_operation (sign : String) (s : CalcState) : CalcResult :=
  if s.label = "" then
    match remove_zeros s.lineEdit with
    | .error e => .error (e, s)
    | .ok r =>
      .ok { s with label := r ++ " " ++ sign, lineEdit := "0",
                   is_result_shown := false }
  else
    match get_mathsign s with
    | .error e => .error (e, s)
    | .ok ms =>
      if ms = some "=" then
        match remove_zeros s.lineEdit with
        | .error e => .error (e, s)
        | .ok r =>
          .ok { s with label := r ++ " " ++ sign, is_result_shown := false }
      else
        .ok { s with label := pyDropLast s.label 1 ++ sign,
                     is_result_shown := false }

/-! ## Calculator: spec-modelled repaired entry handlers

The four entry handlers of the source abort in an `AttributeError` because
of the missing `clear_temp` method (see `clear_temp`).  The specification
(§4.1) describes these handlers without any such step; the following
definitions are the handlers as the spec states them — identical to the
source bodies with the `clear_temp` call omitted.  They witness what the
intended behaviour is where a claim describes it. -/

/-- Modelled from the spec: `add_digit` of §4.1 ("if ErrorState, clear it
first.  If ResultShownFlag, reset Entry to \"0\" and clear the flag.
Append digit `d` to Entry, replacing a lone \"0\""), i.e. the source body
without the failing `clear_temp` call. -/
def spec_add_digit (digit : String) (s : CalcState) : CalcState :=
  let s := remove_error s
  let s := if s.is_result_shown then
      { s with lineEdit := "0", is_result_shown := false }
    else s
  if s.lineEdit = "0" then { s with lineEdit := digit }
  else { s with lineEdit := s.lineEdit ++ digit }

/-- Modelled from the spec: `negate` of §4.1 ("toggle a leading \"-\" on
Entry; ... pressing on Entry==\"0\" is a no-op"), i.e. the source body
without the failing `clear_temp` call. -/
def spec_negate (s : CalcState) : CalcState :=
  let entry := s.lineEdit
  let entry :=
    if pyStartsWith entry "-" then pyDropFirst entry
    else if entry ≠ "0" then "-" ++ entry
    else entry
  { s with lineEdit := entry }

/-! ## Calculator: helper lemmas -/

/-- `add_digit` aborts at the `clear_temp` call: only the leading
`remove_error` has executed when `AttributeError` is raised. -/
theorem add_digit_raises (d : String) (s : CalcState) :
    add_digit d s = .error (.attributeError, remove_error s) := rfl

/-- `add_point` aborts at the `clear_temp` call with the state untouched. -/
theorem add_point_raises (s : CalcState) :
    add_point s = .error (.attributeError, s) := rfl

/-- `negate` aborts at the `clear_temp` call with the state untouched. -/
theorem negate_raises (s : CalcState) :
    negate s = .error (.attributeError, s) := rfl

/-- `backspace` aborts at the `clear_temp` call: only the leading
`remove_error` has executed when `AttributeError` is raised. -/
theorem backspace_raises (s : CalcState) :
    backspace s = .error (.attributeError, remove_error s) := rfl

/-- `remove_error` on a state showing one of the two error messages resets
the entry and re-enables the operator keys. -/
theorem remove_error_of_error (s : CalcState)
    (h : s.lineEdit = ERROR_ZERO_DIV ∨ s.lineEdit = ERROR_UNDEFINED) :
    remove_error s = { s with lineEdit := "0", buttons_disabled := false } := by
  unfold remove_error
  rw [if_pos h]

/-- `remove_error` right after `show_error` with one of the two messages:
the error text and the button lock are both undone, the rest of the state
(in particular the label) is untouched. -/
theorem remove_error_show_error (M : String) (s : CalcState)
    (h : M = ERROR_ZERO_DIV ∨ M = ERROR_UNDEFINED) :
    remove_error (show_error M s)
      = { s with lineEdit := "0", buttons_disabled := false } := by
  have hM : (show_error M s).lineEdit = M := rfl
  unfold remove_error
  rw [hM, if_pos h]
  rfl

/-- Well-formedness of a Python number: a float pair has a positive
denominator.  Every value `int`/`float` parsing produces is well formed. -/
def PyNum.wf : PyNum → Prop
  | .int _ => True
  | .float f => 0 < f.d

/-- `intPow10` is positive. -/
theorem intPow10_pos (k : Nat) : 0 < intPow10 k := by
  induction k with
  | zero => decide
  | succ n ih => unfold intPow10; positivity

/-- The body of float parsing always returns a power of ten as
denominator. -/
theorem pyParseFloatBody_wf (cs : List Char) (f : PyFloat)
    (h : pyParseFloatBody cs = some f) : 0 < f.d := by
  unfold pyParseFloatBody at h
  dsimp only [] at h
  split at h
  · cases Option.some.inj h
    exact intPow10_pos _
  · cases h

/-- Float parsing always returns a power of ten as denominator. -/
theorem pyParseFloat_wf (s : String) (f : PyFloat)
    (h : pyParseFloat s = some f) : 0 < f.d := by
  unfold pyParseFloat at h
  split at h
  · rcases Option.map_eq_some'.mp h with ⟨g, hg, rfl⟩
    exact pyParseFloatBody_wf _ g hg
  · exact pyParseFloatBody_wf _ _ h
  · exact pyParseFloatBody_wf _ _ h

/-- `get_entry` only produces well-formed numbers. -/
theorem get_entry_wf (s : CalcState) (R : PyNum)
    (h : get_entry s = some R) : R.wf := by
  unfold get_entry at h
  dsimp only [] at h
  split at h
  · rcases Option.map_eq_some'.mp h with ⟨f, hf, rfl⟩
    exact pyParseFloat_wf _ _ hf
  · rcases Option.map_eq_some'.mp h with ⟨i, _, rfl⟩
    trivial

/-- `get_temp` only produces well-formed numbers. -/
theorem get_temp_wf (s : CalcState) (L : PyNum)
    (h : get_temp s = .ok (some L)) : L.wf := by
  unfold get_temp at h
  split at h
  · exact absurd (Except.ok.inj h) (by simp)
  · split at h
    · exact absurd h (by simp)
    · split at h
      · split at h
        · rename_i f hf
          cases Option.some.inj (Except.ok.inj h)
          exact pyParseFloat_wf _ _ hf
        · exact absurd h (by simp)
      · split at h
        · cases Option.some.inj (Except.ok.inj h)
          trivial
        · exact absurd h (by simp)

/-- On a well-formed number, the executable zero test of the code agrees
with value-level equality to `0`. -/
theorem isZero_iff_val_eq_zero (x : PyNum) (hw : x.wf) :
    x.isZero = true ↔ x.val = 0 := by
  cases x with
  | int i => simp [PyNum.isZero, PyNum.val]
  | float f =>
    have hd : (f.d : ℚ) ≠ 0 := by
      have h0 : (0 : ℚ) < (f.d : ℚ) := by exact_mod_cast hw
      exact h0.ne'
    simp [PyNum.isZero, PyNum.val, div_eq_zero_iff, hd]

/-- Unfolding `calculate` on a pending division whose right operand has
value `0`: the `ZeroDivisionError` branch shows `ERROR_UNDEFINED` when the
left operand equals `0` and `ERROR_ZERO_DIV` otherwise. -/
theorem calculate_div_zero (s : CalcState) (L R : PyNum)
    (hsign : get_mathsign s = .ok (some "/"))
    (htemp : get_temp s = .ok (some L))
    (hentry : get_entry s = some R)
    (hzero : R.val = 0) :
    calculate s =
      .ok (if L.val = 0 then show_error ERROR_UNDEFINED s
           else show_error ERROR_ZERO_DIV s) := by
  have hlab : ¬ s.label = "" := by
    intro h
    simp [get_mathsign, h] at hsign
  have hRz : R.isZero = true :=
    (isZero_iff_val_eq_zero R (get_entry_wf s R hentry)).mpr hzero
  have hLiff := isZero_iff_val_eq_zero L (get_temp_wf s L htemp)
  have hop : operations "/" = some CalcOp.div := rfl
  by_cases hL : L.val = 0
  · have hLz : L.isZero = true := hLiff.mpr hL
    simp only [calculate, if_neg hlab, hsign, htemp, hentry, hop, applyOp,
      hRz, if_true, hLz, if_pos hL]
  · have hLz : ¬ L.isZero = true := fun hh => hL (hLiff.mp hh)
    simp only [calculate, if_neg hlab, hsign, htemp, hentry, hop, applyOp,
      hRz, if_true, hLz, if_neg hL]
    simp [hLz]

/-! ## Calculator: claim theorems -/

/-- **C1.** Every digit, point, negate and backspace event handler invokes
`self.clear_temp()`, a method defined nowhere in the `Calculator` class or
module, so in every state each of these events raises `AttributeError`
before completing its documented effect on the entry: the raised error
carries the state exactly as the (for `add_digit`/`backspace`) leading
`remove_error` call left it, with no digit appended, no point added, no
sign toggled and no character removed. -/
theorem entry_handlers_always_raise_attribute_error (s : CalcState) (d : String) :
    add_digit d s = .error (.attributeError, remove_error s) ∧
    add_point s = .error (.attributeError, s) ∧
    negate s = .error (.attributeError, s) ∧
    backspace s = .error (.attributeError, remove_error s) :=
  ⟨add_digit_raises d s, add_point_raises s, negate_raises s, backspace_raises s⟩

/-- **C2.** The claimed scenario `"1","2","+","3","="` cannot run on the
code: already the first digit event raises `AttributeError` from the
missing `clear_temp` (first conjunct).  On the handlers as the spec states
them (`spec_add_digit`, §4.1) together with the source's `math_operation`
and `calculate`, the scenario does end with entry `"15"`, expression
display `"12 + 3 ="` and the result flag set (second conjunct). -/
theorem scenario_12_plus_3_crashes_but_intended_gives_15 :
    add_digit "1" calcInit = .error (.attributeError, calcInit) ∧
    (do
      let s1 := spec_add_digit "1" calcInit
      let s2 := spec_add_digit "2" s1
      let s3 ← math_operation "+" s2
      let s4 := spec_add_digit "3" s3
      calculate s4 : CalcResult) =
      .ok { lineEdit := "15", label := "12 + 3 =", is_result_shown := true,
            buttons_disabled := false } :=
  ⟨rfl, rfl⟩

/-- **C3.** On a pending division whose right operand parses to value `0`,
`calculate` shows `"Result is undefined"` in place of the entry when the
stored left operand equals `0` and `"Division by zero"` otherwise; both
disable the operator and equals buttons, and the error state is cleared by
any digit, backspace or clear event (each resets the entry to `"0"` and
re-enables the buttons, the entry handlers then aborting in the unrelated
`clear_temp` `AttributeError`), while point and negate events leave the
error in place. -/
theorem division_by_zero_error_lifecycle (s : CalcState) (L R : PyNum)
    (hsign : get_mathsign s = .ok (some "/"))
    (htemp : get_temp s = .ok (some L))
    (hentry : get_entry s = some R)
    (hzero : R.val = 0) :
    ∃ M, (L.val = 0 → M = ERROR_UNDEFINED) ∧
      (¬ L.val = 0 → M = ERROR_ZERO_DIV) ∧
      calculate s = .ok (show_error M s) ∧
      (show_error M s).buttons_disabled = true ∧
      (∀ d, add_digit d (show_error M s) =
        .error (.attributeError, { s with lineEdit := "0", buttons_disabled := false })) ∧
      backspace (show_error M s) =
        .error (.attributeError, { s with lineEdit := "0", buttons_disabled := false }) ∧
      clear_all (show_error M s) = calcInit ∧
      add_point (show_error M s) = .error (.attributeError, show_error M s) ∧
      negate (show_error M s) = .error (.attributeError, show_error M s) := by
  have hcalc := calculate_div_zero s L R hsign htemp hentry hzero
  by_cases hL : L.val = 0
  · refine ⟨ERROR_UNDEFINED, fun _ => rfl, fun h => absurd hL h, ?_, rfl, ?_, ?_, ?_,
      add_point_raises _, negate_raises _⟩
    · rw [hcalc, if_pos hL]
    · intro d
      rw [add_digit_raises, remove_error_show_error _ _ (Or.inr rfl)]
    · rw [backspace_raises, remove_error_show_error _ _ (Or.inr rfl)]
    · unfold clear_all
      rw [remove_error_show_error _ _ (Or.inr rfl)]
      rfl
  · refine ⟨ERROR_ZERO_DIV, fun h => absurd h hL, fun _ => rfl, ?_, rfl, ?_, ?_, ?_,
      add_point_raises _, negate_raises _⟩
    · rw [hcalc, if_neg hL]
    · intro d
      rw [add_digit_raises, remove_error_show_error _ _ (Or.inl rfl)]
    · rw [backspace_raises, remove_error_show_error _ _ (Or.inl rfl)]
    · unfold clear_all
      rw [remove_error_show_error _ _ (Or.inl rfl)]
      rfl

/-- Witness for C3 at the concrete state `entry "0"`, label `"5 /"`:
`5 / 0` shows `"Division by zero"` with the buttons disabled, and a digit
event clears the error. -/
theorem division_by_zero_error_lifecycle_witness :
    calculate { lineEdit := "0", label := "5 /", is_result_shown := false,
                buttons_disabled := false } =
      .ok { lineEdit := ERROR_ZERO_DIV, label := "5 /", is_result_shown := false,
            buttons_disabled := true } ∧
    add_digit "7" { lineEdit := ERROR_ZERO_DIV, label := "5 /",
                    is_result_shown := false, buttons_disabled := true } =
      .error (.attributeError,
        { lineEdit := "0", label := "5 /", is_result_shown := false,
          buttons_disabled := false }) := by
  obtain ⟨M, _, h1, hc, _, hd, _⟩ :=
    division_by_zero_error_lifecycle
      { lineEdit := "0", label := "5 /", is_result_shown := false,
        buttons_disabled := false }
      (.int 5) (.int 0) rfl rfl rfl (by decide)
  have hM : M = ERROR_ZERO_DIV := h1 (by decide)
  subst hM
  exact ⟨hc, hd "7"⟩

/-- **C4.** With the result flag set, `add_digit` never reaches its
reset-to-`"0"` step: it raises `AttributeError` leaving the entry `"15"`
and the flag still set (first conjunct); the spec-modelled handler does
replace the shown result by the typed digit (second conjunct); likewise
the lone-`"0"` replacement never executes in the code (third conjunct)
though the spec-modelled handler performs it, giving `"5"` and not `"05"`
(fourth conjunct). -/
theorem result_shown_digit_reset_broken_by_clear_temp :
    add_digit "5" { lineEdit := "15", label := "12 + 3 =",
                    is_result_shown := true, buttons_disabled := false } =
      .error (.attributeError,
        { lineEdit := "15", label := "12 + 3 =", is_result_shown := true,
          buttons_disabled := false }) ∧
    spec_add_digit "5" { lineEdit := "15", label := "12 + 3 =",
                         is_result_shown := true, buttons_disabled := false } =
      { lineEdit := "5", label := "12 + 3 =", is_result_shown := false,
        buttons_disabled := false } ∧
    add_digit "5" calcInit = .error (.attributeError, calcInit) ∧
    spec_add_digit "5" calcInit =
      { lineEdit := "5", label := "", is_result_shown := false,
        buttons_disabled := false } :=
  ⟨rfl, rfl, rfl, rfl⟩

/-- **C5.** The claimed scenario `"5","+","-","3","="` cannot run on the
code: the first digit event raises `AttributeError` (first conjunct).  The
operator-substitution half does hold for the source's `math_operation`: on
the built state with label `"5 +"` it replaces only the trailing operator
symbol, leaving the stored left operand and the entry unchanged (second
conjunct); and with the spec-modelled digit handler the full scenario
evaluates to `2` (third conjunct). -/
theorem operator_substitution_and_crashing_scenario :
    add_digit "5" calcInit = .error (.attributeError, calcInit) ∧
    math_operation "-" { lineEdit := "0", label := "5 +",
                         is_result_shown := false, buttons_disabled := false } =
      .ok { lineEdit := "0", label := "5 -", is_result_shown := false,
            buttons_disabled := false } ∧
    (do
      let s1 := spec_add_digit "5" calcInit
      let s2 ← math_operation "+" s1
      let s3 ← math_operation "-" s2
      let s4 := spec_add_digit "3" s3
      calculate s4 : CalcResult) =
      .ok { lineEdit := "2", label := "5 - 3 =", is_result_shown := true,
            buttons_disabled := false } :=
  ⟨rfl, rfl, rfl⟩

/-- **C6 counterexample.** A reachable steady state in which `ErrorState`
and a non-empty pending expression hold simultaneously: from the initial
state, the events `"/"` then `"="` produce the `"Result is undefined"`
error with the operator buttons disabled while the pending-expression
label still reads `"0 /"`. -/
theorem error_and_pending_expression_coexist :
    math_operation "/" calcInit =
      .ok { lineEdit := "0", label := "0 /", is_result_shown := false,
            buttons_disabled := false } ∧
    calculate { lineEdit := "0", label := "0 /", is_result_shown := false,
                buttons_disabled := false } =
      .ok { lineEdit := ERROR_UNDEFINED, label := "0 /",
            is_result_shown := false, buttons_disabled := true } ∧
    ({ lineEdit := ERROR_UNDEFINED, label := "0 /", is_result_shown := false,
       buttons_disabled := true } : CalcState).label ≠ "" :=
  ⟨rfl, rfl, by decide⟩

/-- **C6 amended.** When evaluation enters the error state the
pending-expression label is retained alongside the error, and the next
digit event clears the error (entry back to `"0"`, buttons re-enabled)
while still retaining the label. -/
theorem error_state_retains_pending_expression (s : CalcState) (L R : PyNum)
    (d : String)
    (hsign : get_mathsign s = .ok (some "/"))
    (htemp : get_temp s = .ok (some L))
    (hentry : get_entry s = some R)
    (hzero : R.val = 0) :
    ∃ err : CalcState, calculate s = .ok err ∧ err.label = s.label ∧
      err.buttons_disabled = true ∧
      add_digit d err =
        .error (.attributeError,
          { err with lineEdit := "0", buttons_disabled := false }) ∧
      ({ err with lineEdit := "0", buttons_disabled := false } : CalcState).label
        = s.label := by
  have hcalc := calculate_div_zero s L R hsign htemp hentry hzero
  by_cases hL : L.val = 0
  · refine ⟨show_error ERROR_UNDEFINED s, ?_, rfl, rfl, ?_, rfl⟩
    · rw [hcalc, if_pos hL]
    · rw [add_digit_raises, remove_error_show_error _ _ (Or.inr rfl)]
      rfl
  · refine ⟨show_error ERROR_ZERO_DIV s, ?_, rfl, rfl, ?_, rfl⟩
    · rw [hcalc, if_neg hL]
    · rw [add_digit_raises, remove_error_show_error _ _ (Or.inl rfl)]
      rfl

/-- Witness for the amended C6 at the reachable state with label `"0 /"`. -/
theorem error_state_retains_pending_expression_witness :
    ∃ err : CalcState,
      calculate { lineEdit := "0", label := "0 /", is_result_shown := false,
                  buttons_disabled := false } = .ok err ∧
      err.label = "0 /" ∧ err.buttons_disabled = true ∧
      add_digit "1" err =
        .error (.attributeError,
          { err with lineEdit := "0", buttons_disabled := false }) ∧
      ({ err with lineEdit := "0", buttons_disabled := false } : CalcState).label
        = "0 /" :=
  error_state_retains_pending_expression
    { lineEdit := "0", label := "0 /", is_result_shown := false,
      buttons_disabled := false }
    (.int 0) (.int 0) "1" rfl rfl rfl (by decide)

/-- **C7.** `negate` never toggles anything on the code: it raises
`AttributeError` with the entry unchanged (first conjunct).  On the
spec-modelled handler the claimed algebra does hold: negating `"5"` gives
`"-5"`, doing it twice restores `"5"` (likewise from `"-7"`), and negating
the lone `"0"` is a no-op, never producing `"-0"`. -/
theorem negate_crashes_and_spec_negate_is_involutive :
    negate { lineEdit := "5", label := "", is_result_shown := false,
             buttons_disabled := false } =
      .error (.attributeError,
        { lineEdit := "5", label := "", is_result_shown := false,
          buttons_disabled := false }) ∧
    spec_negate { lineEdit := "5", label := "", is_result_shown := false,
                  buttons_disabled := false } =
      { lineEdit := "-5", label := "", is_result_shown := false,
        buttons_disabled := false } ∧
    spec_negate (spec_negate
      { lineEdit := "5", label := "", is_result_shown := false,
        buttons_disabled := false }) =
      { lineEdit := "5", label := "", is_result_shown := false,
        buttons_disabled := false } ∧
    spec_negate (spec_negate
      { lineEdit := "-7", label := "", is_result_shown := false,
        buttons_disabled := false }) =
      { lineEdit := "-7", label := "", is_result_shown := false,
        buttons_disabled := false } ∧
    spec_negate calcInit = calcInit :=
  ⟨rfl, rfl, rfl, rfl, rfl⟩

/-- **C10.** With a pending expression present, `math_operation` touches
only the label and the result flag — after an operator on the finalized
result `"15"` the entry still shows `"15"` (first conjunct) — but the
claimed consequence fails on the code: the next digit event raises
`AttributeError` and appends nothing (second conjunct); only the
spec-modelled digit handler appends to the kept result, giving `"153"`
(third conjunct). -/
theorem math_operation_keeps_entry_but_digit_append_crashes :
    math_operation "+" { lineEdit := "15", label := "12 + 3 =",
                         is_result_shown := true, buttons_disabled := false } =
      .ok { lineEdit := "15", label := "15 +", is_result_shown := false,
            buttons_disabled := false } ∧
    add_digit "3" { lineEdit := "15", label := "15 +",
                    is_result_shown := false, buttons_disabled := false } =
      .error (.attributeError,
        { lineEdit := "15", label := "15 +", is_result_shown := false,
          buttons_disabled := false }) ∧
    spec_add_digit "3" { lineEdit := "15", label := "15 +",
                         is_result_shown := false, buttons_disabled := false } =
      { lineEdit := "153", label := "15 +", is_result_shown := false,
        buttons_disabled := false } :=
  ⟨rfl, rfl, rfl⟩

/-! ## Rock-Paper-Scissors: `src/RPS/RPS.py` -/

namespace RPS

/-- `OPTIONS` of the source. -/
def OPTIONS : List String := ["rock", "paper", "scissors"]

/-- The `wins` set of `determine_winner`: the pairs (user, computer) in
which the user wins. -/
def wins : List (String × String) :=
  [("rock", "scissors"), ("paper", "rock"), ("scissors", "paper")]

/-- `determine_winner` of the source: `0` on a tie, `1` when the user's
pair is in `wins`, `-1` otherwise. -/
def determine_winner (user computer : String) : Int :=
  if user = computer then 0
  else if (user, computer) ∈ wins then 1 else -1

end RPS

/-- **C9.** Over the fixed set `OPTIONS = {rock, paper, scissors}`,
`determine_winner` returns the tie value `0` iff the choices are equal,
the user-wins value `1` iff the pair is one of (rock, scissors),
(paper, rock), (scissors, paper), and the computer-wins value `-1`
otherwise — exactly the beats-relation rock>scissors, paper>rock,
scissors>paper. -/
theorem determine_winner_matches_beats_relation (u c : String)
    (hu : u ∈ RPS.OPTIONS) (hc : c ∈ RPS.OPTIONS) :
    (RPS.determine_winner u c = 0 ↔ u = c) ∧
    (RPS.determine_winner u c = 1 ↔ (u, c) ∈ RPS.wins) ∧
    (RPS.determine_winner u c = -1 ↔ (u ≠ c ∧ (u, c) ∉ RPS.wins)) := by
  simp only [RPS.OPTIONS, List.mem_cons, List.not_mem_nil, or_false] at hu hc
  rcases hu with rfl | rfl | rfl <;> rcases hc with rfl | rfl | rfl <;> decide

/-- Witness for C9 at (rock, scissors): the user-wins value, matching the
beats-relation. -/
theorem determine_winner_matches_beats_relation_witness :
    ("rock" ∈ RPS.OPTIONS) ∧ ("scissors" ∈ RPS.OPTIONS) ∧
    (RPS.determine_winner "rock" "scissors" = 1 ↔
      ("rock", "scissors") ∈ RPS.wins) :=
  ⟨by decide, by decide,
    (determine_winner_matches_beats_relation "rock" "scissors"
      (by decide) (by decide)).2.1⟩

/-! ## Currency converter: `src/CurrencyConverter/CurrencyConverter.py`

The client is modelled as a trace semantics: each function returns the
list of observable effects it performs (prompts written by `input`, lines
written by `print`, HTTP GETs issued by `requests.get`) alongside its
result.  The network is an oracle from URLs to responses; `input` reads
from an explicit list of pending user inputs.  Exceptions escaping `main`
(only `EOFError` from `input`, or a `TypeError` on a malformed response)
end the trace with a `raised` marker. -/

namespace CC

/-- A JSON value as `resp.json()` returns it. -/
inductive JsonVal where
  | num (x : PyNum)
  | str (s : String)
  | obj (fields : List (String × JsonVal))
  | null

/-- An observable effect of the client. -/
inductive CCEffect where
  | prompt (msg : String)
  | print (msg : String)
  | httpGet (url : String)
  | raised (exc : String)
deriving DecidableEq, Repr

/-- Exceptions of the client that `main` distinguishes. -/
inductive CCExc where
  | runtimeError (msg : String)
  | requestException (msg : String)
  | valueError
  | typeError

/-- What the network does for a given URL: a `requests.RequestException`
(covering connection errors and `raise_for_status`), a body on which
`.json()` raises `ValueError`, or a parsed JSON value. -/
inductive ApiResponse where
  | reqError (msg : String)
  | badJson
  | ok (j : JsonVal)

/-- `BASE_URL` of the source. -/
def BASE_URL : String := "https://free.currconv.com/"

/-- The message of the `RuntimeError` raised when the key is missing. -/
def KEY_MSG : String :=
  "CURRENCY_API_KEY is not set. Export it or put it in your .env."

/-- The command prompt of the main loop. -/
def CMD_PROMPT : String := "Enter a command (q to quit): "

/-- The greeting printed once by `main`. -/
def HELLO : String :=
  "Hello! Commands:\n- list: show available currencies\n- rate: show exchange rate between two currencies\n- convert: convert an amount\n- q: quit\n"

/-- Python truthiness of `API_KEY` (`os.getenv` result): `None` and the
empty string are falsy. -/
def pyTruthy : Option String → Bool
  | none => false
  | some s => !s.data.isEmpty

/-- `f"...{API_KEY}"` interpolation: `None` prints as `"None"`. -/
def keyStr : Option String → String
  | none => "None"
  | some s => s

/-- Dict lookup in a JSON object. -/
def jsonLookup : List (String × JsonVal) → String → Option JsonVal
  | [], _ => none
  | (k, v) :: rest, key => if k = key then some v else jsonLookup rest key

/-- `data.get(k, dflt)`; the response of both endpoints is a JSON object
in every real exchange, so the non-dict fallback is never exercised. -/
def jsonGetD (j : JsonVal) (k : String) (dflt : JsonVal) : JsonVal :=
  match j with
  | .obj fields => (jsonLookup fields k).getD dflt
  | _ => dflt

/-- `data.get(k)` (default `None`). -/
def jsonGet (j : JsonVal) (k : String) : Option JsonVal :=
  match j with
  | .obj fields => jsonLookup fields k
  | _ => none

/-- `not data` on a JSON value: empty dict, empty string, zero and null
are falsy. -/
def jsonFalsy : JsonVal → Bool
  | .obj fields => fields.isEmpty
  | .str s => s.data.isEmpty
  | .num x => x.isZero
  | .null => true

/-- `f"{v}"` rendering of a JSON value, on the values this development
evaluates (strings and numbers; the dict placeholder is never printed by
a verified claim). -/
def JsonVal.toDisplay : JsonVal → String
  | .num x => pyStr x
  | .str s => s
  | .obj _ => "<dict>"
  | .null => "None"

/-- `api_get_json` of the source: raise `RuntimeError` when the key is
missing or empty — before any request is attempted — otherwise issue the
GET and return the outcome the oracle prescribes. -/
def api_get_json (key : Option String) (oracle : String → ApiResponse)
    (endpoint : String) : List CCEffect × Except CCExc JsonVal :=
  if pyTruthy key = false then ([], .error (.runtimeError KEY_MSG))
  else
    let url := BASE_URL ++ endpoint
    match oracle url with
    | .reqError m => ([.httpGet url], .error (.requestException m))
    | .badJson => ([.httpGet url], .error .valueError)
    | .ok j => ([.httpGet url], .ok j)

/-- Stable insertion into a list sorted by currency code. -/
def insertByCode (p : String × JsonVal) :
    List (String × JsonVal) → List (String × JsonVal)
  | [] => [p]
  | q :: qs => if p.1 ≤ q.1 then p :: q :: qs else q :: insertByCode p qs

/-- `items.sort(key=lambda x: x[0])`: stable sort by currency code. -/
def sortByCode (l : List (String × JsonVal)) : List (String × JsonVal) :=
  l.foldr insertByCode []

/-- `get_currencies` of the source. -/
def get_currencies (key : Option String) (oracle : String → ApiResponse) :
    List CCEffect × Except CCExc (List (String × JsonVal)) :=
  let endpoint := "api/v7/currencies?apiKey=" ++ keyStr key
  match api_get_json key oracle endpoint with
  | (effs, .error e) => (effs, .error e)
  | (effs, .ok data) =>
    (effs, .ok (sortByCode (match jsonGetD data "results" (.obj []) with
      | .obj fields => fields
      | _ => [])))

/-- `print_currencies` of the source: one line per currency. -/
def print_currencies (currencies : List (String × JsonVal)) : List CCEffect :=
  currencies.map (fun p =>
    .print ((jsonGetD p.2 "id" (.str "")).toDisplay ++ " - " ++
      (jsonGetD p.2 "currencyName" (.str "")).toDisplay ++ " - " ++
      (jsonGetD p.2 "currencySymbol" (.str "")).toDisplay))

/-- `exchange_rate` of the source: fetch `<FROM>_<TO>`; print and return
`None` on a falsy body or a missing/null pair; otherwise print the raw
rate and return `float(rate)`. -/
def exchange_rate (key : Option String) (oracle : String → ApiResponse)
    (cur1 cur2 : String) : List CCEffect × Except CCExc (Option PyFloat) :=
  let pair := cur1 ++ "_" ++ cur2
  let endpoint :=
    "api/v7/convert?q=" ++ pair ++ "&compact=ultra&apiKey=" ++ keyStr key
  match api_get_json key oracle endpoint with
  | (effs, .error e) => (effs, .error e)
  | (effs, .ok data) =>
    if jsonFalsy data then
      (effs ++ [.print "Invalid currencies or empty response."], .ok none)
    else
      match jsonGet data pair with
      | none =>
        (effs ++ [.print "Invalid currencies or unsupported pair."], .ok none)
      | some .null =>
        (effs ++ [.print "Invalid currencies or unsupported pair."], .ok none)
      | some rate =>
        let effs := effs ++
          [.print (cur1 ++ " -> " ++ cur2 ++ " = " ++ rate.toDisplay)]
        match rate with
        | .num x => (effs, .ok (some x.toFloatPair))
        | .str t =>
          match pyParseFloat (pyStrip t) with
          | some f => (effs, .ok (some f))
          | none => (effs, .error .valueError)
        | _ => (effs, .error .typeError)

/-- `f"{converted:.4f}"`: four fractional digits, rounding to nearest
(ties idealised upward; no verified claim exercises a tie, and every
value they print is exact at four digits). -/
def format4 (f : PyFloat) : String :=
  pyDecRepr ((2 * f.n * intPow10 4 + f.d) / (2 * f.d)) 4

/-- `convert` of the source. -/
def convert (key : Option String) (oracle : String → ApiResponse)
    (cur1 cur2 amount : String) : List CCEffect × Except CCExc (Option PyFloat) :=
  match exchange_rate key oracle cur1 cur2 with
  | (effs, .error e) => (effs, .error e)
  | (effs, .ok none) => (effs, .ok none)
  | (effs, .ok (some rate)) =>
    match pyParseFloat amount with
    | none => (effs ++ [.print "Invalid amount."], .ok none)
    | some value =>
      let conv := rate.mul value
      (effs ++ [.print (pyFloatRepr value ++ " " ++ cur1 ++ " is equal to " ++
        format4 conv ++ " " ++ cur2)], .ok (some conv))

/-- The body of the `list` command under `main`'s `try`: fetch (and cache)
the currencies on a cache miss and print them.  Returns the effects, the
break flag (`True` when the loop ends: `RuntimeError` is printed and
breaks, the uncaught `TypeError` propagates), and the updated cache. -/
def do_list (key : Option String) (oracle : String → ApiResponse)
    (cache : Option (List (String × JsonVal))) :
    List CCEffect × Bool × Option (List (String × JsonVal)) :=
  match cache with
  | some cur => (print_currencies cur, false, some cur)
  | none =>
    match get_currencies key oracle with
    | (effs, .ok cur) => (effs ++ print_currencies cur, false, some cur)
    | (effs, .error (.runtimeError m)) => (effs ++ [.print m], true, none)
    | (effs, .error (.requestException m)) =>
      (effs ++ [.print ("Network/API error: " ++ m)], false, none)
    | (effs, .error .valueError) =>
      (effs ++ [.print "Failed to parse API response."], false, none)
    | (effs, .error .typeError) => (effs ++ [.raised "TypeError"], true, none)

/-- The body of the `rate` command under `main`'s `try` (after its two
inputs were read): effects and break flag, as in `do_list`. -/
def do_rate (key : Option String) (oracle : String → ApiResponse)
    (cur1 cur2 : String) : List CCEffect × Bool :=
  match exchange_rate key oracle cur1 cur2 with
  | (effs, .ok _) => (effs, false)
  | (effs, .error (.runtimeError m)) => (effs ++ [.print m], true)
  | (effs, .error (.requestException m)) =>
    (effs ++ [.print ("Network/API error: " ++ m)], false)
  | (effs, .error .valueError) =>
    (effs ++ [.print "Failed to parse API response."], false)
  | (effs, .error .typeError) => (effs ++ [.raised "TypeError"], true)

/-- The body of the `convert` command under `main`'s `try` (after its
three inputs were read): effects and break flag, as in `do_list`. -/
def do_convert (key : Option String) (oracle : String → ApiResponse)
    (cur1 cur2 amount : String) : List CCEffect × Bool :=
  match convert key oracle cur1 cur2 amount with
  | (effs, .ok _) => (effs, false)
  | (effs, .error (.runtimeError m)) => (effs ++ [.print m], true)
  | (effs, .error (.requestException m)) =>
    (effs ++ [.print ("Network/API error: " ++ m)], false)
  | (effs, .error .valueError) =>
    (effs ++ [.print "Failed to parse API response."], false)
  | (effs, .error .typeError) => (effs ++ [.raised "TypeError"], true)

/-- One iteration of the command loop of `main`: read a command (and the
extra inputs of `convert`/`rate`) from the pending-input list and dispatch
exactly as the source's `try`/`except` does — a `RuntimeError` (the
missing key) is printed and breaks the loop, a `RequestException` or
`ValueError` is printed and the loop continues through `step`, `q` breaks,
anything else reports an unrecognized command.  An exhausted input list
models `input()` raising `EOFError`, which nothing catches and which
therefore also ends the trace.  `step` is the rest of the loop. -/
def mainIter (key : Option String) (oracle : String → ApiResponse)
    (step : Option (List (String × JsonVal)) → List String → List CCEffect)
    (cache : Option (List (String × JsonVal))) (inputs : List String) :
    List CCEffect :=
  match inputs with
  | [] => [.prompt CMD_PROMPT, .raised "EOFError"]
  | cmd :: rest =>
    let c := pyLower (pyStrip cmd)
    if c = "q" then [.prompt CMD_PROMPT]
    else if c = "list" then
      let o := do_list key oracle cache
      .prompt CMD_PROMPT :: (o.1 ++ (if o.2.1 then [] else step o.2.2 rest))
    else if c = "convert" then
      match rest with
      | [] => [.prompt CMD_PROMPT, .prompt "Enter a currency you have: ",
               .raised "EOFError"]
      | i1 :: rest1 =>
        let cur1 := pyUpper (pyStrip i1)
        match rest1 with
        | [] => [.prompt CMD_PROMPT, .prompt "Enter a currency you have: ",
                 .prompt ("Enter an amount in " ++ cur1 ++ ": "),
                 .raised "EOFError"]
        | i2 :: rest2 =>
          let amount := pyStrip i2
          match rest2 with
          | [] => [.prompt CMD_PROMPT, .prompt "Enter a currency you have: ",
                   .prompt ("Enter an amount in " ++ cur1 ++ ": "),
                   .prompt "Enter a currency you want to get: ",
                   .raised "EOFError"]
          | i3 :: rest3 =>
            let cur2 := pyUpper (pyStrip i3)
            let o := do_convert key oracle cur1 cur2 amount
            [CCEffect.prompt CMD_PROMPT,
             .prompt "Enter a currency you have: ",
             .prompt ("Enter an amount in " ++ cur1 ++ ": "),
             .prompt "Enter a currency you want to get: "] ++
              (o.1 ++ (if o.2 then [] else step cache rest3))
    else if c = "rate" then
      match rest with
      | [] => [.prompt CMD_PROMPT, .prompt "Enter a currency you have: ",
               .raised "EOFError"]
      | i1 :: rest1 =>
        let cur1 := pyUpper (pyStrip i1)
        match rest1 with
        | [] => [.prompt CMD_PROMPT, .prompt "Enter a currency you have: ",
                 .prompt "Enter a currency to convert to: ", .raised "EOFError"]
        | i2 :: rest2 =>
          let cur2 := pyUpper (pyStrip i2)
          let o := do_rate key oracle cur1 cur2
          [CCEffect.prompt CMD_PROMPT,
           .prompt "Enter a currency you have: ",
           .prompt "Enter a currency to convert to: "] ++
            (o.1 ++ (if o.2 then [] else step cache rest2))
    else
      .prompt CMD_PROMPT :: .print "Unrecognized command." ::
        step cache rest

/-- The command loop as iterated `mainIter`, bounded by a fuel counter.
Each iteration consumes at least one pending input, so any fuel exceeding
the number of pending inputs yields the loop's full trace; the `0` case is
unreachable from `main` (which supplies `length + 1`). -/
def mainLoopFuel (key : Option String) (oracle : String → ApiResponse) :
    Nat → Option (List (String × JsonVal)) → List String → List CCEffect
  | 0 => fun _ _ => []
  | fuel + 1 => mainIter key oracle (mainLoopFuel key oracle fuel)

/-- The command loop of `main` on a list of pending inputs. -/
def mainLoop (key : Option String) (oracle : String → ApiResponse)
    (cache : Option (List (String × JsonVal))) (inputs : List String) :
    List CCEffect :=
  mainLoopFuel key oracle (inputs.length + 1) cache inputs

/-- `main` of the source: greeting, then the command loop with an empty
currency cache. -/
def main (key : Option String) (oracle : String → ApiResponse)
    (inputs : List String) : List CCEffect :=
  .print HELLO :: mainLoop key oracle none inputs

end CC

/-! ## Currency converter: helper lemmas and the C8 theorem -/

namespace CC

/-- With a missing or empty key, `api_get_json` raises the configuration
`RuntimeError` without issuing any HTTP request. -/
theorem api_get_json_no_key (key : Option String) (hkey : pyTruthy key = false)
    (oracle : String → ApiResponse) (endpoint : String) :
    api_get_json key oracle endpoint = ([], .error (.runtimeError KEY_MSG)) := by
  unfold api_get_json
  rw [hkey]
  rfl

/-- With a missing or empty key, `get_currencies` propagates the
configuration error with no effects. -/
theorem get_currencies_no_key (key : Option String)
    (hkey : pyTruthy key = false) (oracle : String → ApiResponse) :
    get_currencies key oracle = ([], .error (.runtimeError KEY_MSG)) := by
  simp [get_currencies, api_get_json_no_key key hkey oracle]

/-- With a missing or empty key, `exchange_rate` propagates the
configuration error with no effects. -/
theorem exchange_rate_no_key (key : Option String)
    (hkey : pyTruthy key = false) (oracle : String → ApiResponse)
    (cur1 cur2 : String) :
    exchange_rate key oracle cur1 cur2 = ([], .error (.runtimeError KEY_MSG)) := by
  simp [exchange_rate, api_get_json_no_key key hkey oracle]

/-- With a missing or empty key, `convert` propagates the configuration
error with no effects. -/
theorem convert_no_key (key : Option String)
    (hkey : pyTruthy key = false) (oracle : String → ApiResponse)
    (cur1 cur2 amount : String) :
    convert key oracle cur1 cur2 amount = ([], .error (.runtimeError KEY_MSG)) := by
  simp [convert, exchange_rate_no_key key hkey oracle]

/-- Peeling one iteration off the loop on a nonempty input list. -/
theorem mainLoop_cons (key : Option String) (oracle : String → ApiResponse)
    (cache : Option (List (String × JsonVal))) (cmd : String)
    (rest : List String) :
    mainLoop key oracle cache (cmd :: rest) =
      mainIter key oracle (mainLoopFuel key oracle (rest.length + 1))
        cache (cmd :: rest) := rfl

/-- One iteration on a `list` command. -/
theorem mainIter_list (key : Option String) (oracle : String → ApiResponse)
    (step : Option (List (String × JsonVal)) → List String → List CCEffect)
    (cache : Option (List (String × JsonVal))) (rest : List String) :
    mainIter key oracle step cache ("list" :: rest) =
      .prompt CMD_PROMPT :: ((do_list key oracle cache).1 ++
        (if (do_list key oracle cache).2.1 then []
         else step (do_list key oracle cache).2.2 rest)) := rfl

/-- One iteration on a `rate` command with its two currency inputs
available. -/
theorem mainIter_rate (key : Option String) (oracle : String → ApiResponse)
    (step : Option (List (String × JsonVal)) → List String → List CCEffect)
    (cache : Option (List (String × JsonVal))) (i1 i2 : String)
    (rest : List String) :
    mainIter key oracle step cache ("rate" :: i1 :: i2 :: rest) =
      [CCEffect.prompt CMD_PROMPT, .prompt "Enter a currency you have: ",
       .prompt "Enter a currency to convert to: "] ++
        ((do_rate key oracle (pyUpper (pyStrip i1)) (pyUpper (pyStrip i2))).1 ++
          (if (do_rate key oracle (pyUpper (pyStrip i1)) (pyUpper (pyStrip i2))).2
           then [] else step cache rest)) := rfl

/-- One iteration on a `convert` command with its three inputs
available. -/
theorem mainIter_convert (key : Option String) (oracle : String → ApiResponse)
    (step : Option (List (String × JsonVal)) → List String → List CCEffect)
    (cache : Option (List (String × JsonVal))) (i1 i2 i3 : String)
    (rest : List String) :
    mainIter key oracle step cache ("convert" :: i1 :: i2 :: i3 :: rest) =
      [CCEffect.prompt CMD_PROMPT, .prompt "Enter a currency you have: ",
       .prompt ("Enter an amount in " ++ pyUpper (pyStrip i1) ++ ": "),
       .prompt "Enter a currency you want to get: "] ++
        ((do_convert key oracle (pyUpper (pyStrip i1)) (pyUpper (pyStrip i3))
            (pyStrip i2)).1 ++
          (if (do_convert key oracle (pyUpper (pyStrip i1)) (pyUpper (pyStrip i3))
              (pyStrip i2)).2
           then [] else step cache rest)) := rfl

end CC

/-- **C8.** With the `CURRENCY_API_KEY` environment value absent or empty
(`pyTruthy key = false`), every API-touching command — `list`, `rate`,
`convert` — raises the configuration `RuntimeError`, whose message is
printed to the user, no HTTP request is ever issued (no `httpGet` effect
occurs in the trace, whatever the network oracle would answer), and the
command loop ends: the trace is a fixed finite list, independent of all
remaining pending inputs `rest`. -/
theorem missing_api_key_is_fatal_before_any_request (key : Option String)
    (hkey : CC.pyTruthy key = false) (oracle : String → CC.ApiResponse)
    (i1 i2 i3 : String) (rest : List String)
    (cache : Option (List (String × CC.JsonVal))) :
    (CC.mainLoop key oracle none ("list" :: rest) =
      [.prompt CC.CMD_PROMPT, .print CC.KEY_MSG]) ∧
    (CC.mainLoop key oracle cache ("rate" :: i1 :: i2 :: rest) =
      [.prompt CC.CMD_PROMPT, .prompt "Enter a currency you have: ",
       .prompt "Enter a currency to convert to: ", .print CC.KEY_MSG]) ∧
    (CC.mainLoop key oracle cache ("convert" :: i1 :: i2 :: i3 :: rest) =
      [.prompt CC.CMD_PROMPT, .prompt "Enter a currency you have: ",
       .prompt ("Enter an amount in " ++ pyUpper (pyStrip i1) ++ ": "),
       .prompt "Enter a currency you want to get: ", .print CC.KEY_MSG]) ∧
    (∀ url, CC.CCEffect.httpGet url ∉
      CC.mainLoop key oracle none ("list" :: rest)) ∧
    (∀ url, CC.CCEffect.httpGet url ∉
      CC.mainLoop key oracle cache ("rate" :: i1 :: i2 :: rest)) ∧
    (∀ url, CC.CCEffect.httpGet url ∉
      CC.mainLoop key oracle cache ("convert" :: i1 :: i2 :: i3 :: rest)) := by
  have hdl : CC.do_list key oracle none = ([.print CC.KEY_MSG], true, none) := by
    simp [CC.do_list, CC.get_currencies_no_key key hkey oracle]
  have hdr : ∀ c1 c2, CC.do_rate key oracle c1 c2 = ([.print CC.KEY_MSG], true) := by
    intro c1 c2
    simp [CC.do_rate, CC.exchange_rate_no_key key hkey oracle]
  have hdc : ∀ c1 c2 a, CC.do_convert key oracle c1 c2 a =
      ([.print CC.KEY_MSG], true) := by
    intro c1 c2 a
    simp [CC.do_convert, CC.convert_no_key key hkey oracle]
  have h1 : CC.mainLoop key oracle none ("list" :: rest) =
      [.prompt CC.CMD_PROMPT, .print CC.KEY_MSG] := by
    rw [CC.mainLoop_cons, CC.mainIter_list, hdl]
    rfl
  have h2 : CC.mainLoop key oracle cache ("rate" :: i1 :: i2 :: rest) =
      [.prompt CC.CMD_PROMPT, .prompt "Enter a currency you have: ",
       .prompt "Enter a currency to convert to: ", .print CC.KEY_MSG] := by
    rw [CC.mainLoop_cons, CC.mainIter_rate, hdr]
    rfl
  have h3 : CC.mainLoop key oracle cache ("convert" :: i1 :: i2 :: i3 :: rest) =
      [.prompt CC.CMD_PROMPT, .prompt "Enter a currency you have: ",
       .prompt ("Enter an amount in " ++ pyUpper (pyStrip i1) ++ ": "),
       .prompt "Enter a currency you want to get: ", .print CC.KEY_MSG] := by
    rw [CC.mainLoop_cons, CC.mainIter_convert, hdc]
    rfl
  refine ⟨h1, h2, h3, ?_, ?_, ?_⟩
  · intro url
    rw [h1]
    simp
  · intro url
    rw [h2]
    simp
  · intro url
    rw [h3]
    simp

/-- Witness for C8 with `key = none`, a network oracle that would answer
every request, and one pending `list` command followed by another command
that is never reached (the loop has ended). -/
theorem missing_api_key_is_fatal_before_any_request_witness :
    CC.pyTruthy none = false ∧
    (CC.mainLoop none (fun _ => CC.ApiResponse.ok (CC.JsonVal.obj []))
        none ["list", "rate"] =
      [.prompt CC.CMD_PROMPT, .print CC.KEY_MSG]) ∧
    (∀ url, CC.CCEffect.httpGet url ∉
      CC.mainLoop none (fun _ => CC.ApiResponse.ok (CC.JsonVal.obj []))
        none ["list", "rate"]) := by
  have h := missing_api_key_is_fatal_before_any_request none rfl
    (fun _ => CC.ApiResponse.ok (CC.JsonVal.obj [])) "x" "y" "z" ["rate"] none
  exact ⟨rfl, h.1, h.2.2.2.1⟩
